import Mathlib

/-!
A shallow embedding of the k0smotron `K0sControlPlane` controller (package
`internal/controller/controlplane`).  Pure helper functions are translated from
`helper.go`; controller methods whose bodies live in
`k0s_controlplane_controller.go` (absent from the sources, only their unit
tests are available) are modelled from the specification, constrained by the
input/output pairs pinned by those unit tests.  All definitions are executable
and all external effects (API reads, patches, creates) are made explicit as
input data or recorded output.
-/

set_option maxHeartbeats 1000000

namespace K0smotron

/-- Projection of the schemaless k0s `ClusterConfig` document onto the paths the
controller reads or writes: `apiVersion`, `kind`, `spec.network.serviceCIDR`,
`spec.network.podCIDR`, `spec.network.clusterDomain`, `spec.api.externalAddress`,
`spec.api.sans` and `spec.network.nodeLocalLoadBalancing.enabled`.  A `none`
field is an absent key in the unstructured document. -/
structure K0sDoc where
  apiVersion : Option String
  kind : Option String
  serviceCIDR : Option String
  podCIDR : Option String
  clusterDomain : Option String
  externalAddress : Option String
  sans : Option (List String)
  nllbEnabled : Option Bool
  deriving DecidableEq, Repr

/-- Cluster API `controlPlaneEndpoint`. -/
structure APIEndpoint where
  host : String
  port : Nat
  deriving DecidableEq, Repr

/-- The cluster network facts consumed by the config enricher
(`clusterNetwork.services.cidrBlocks`, `clusterNetwork.pods.cidrBlocks`,
`clusterNetwork.serviceDomain`). -/
structure ClusterNetwork where
  servicesCIDRBlocks : Option (List String)
  podsCIDRBlocks : Option (List String)
  serviceDomain : String
  deriving DecidableEq, Repr

/-- The attributes of the Cluster API `Cluster` object that the controller
consumes. -/
structure Cluster where
  name : String
  namespaceName : String
  clusterNetwork : Option ClusterNetwork
  controlPlaneEndpoint : APIEndpoint
  paused : Bool
  deriving DecidableEq, Repr

/-- `K0sConfigSpec.Tunneling`. -/
structure TunnelingSpec where
  enabled : Bool
  mode : String
  serverAddress : String
  tunnelingNodePort : Nat
  deriving DecidableEq, Repr

/-- `K0sConfigSpec`: the embedded k0s config document, command-line args, the
download URL override and the tunneling sub-spec. -/
structure K0sConfigSpec where
  k0s : Option K0sDoc
  args : List String
  downloadURL : String
  tunneling : TunnelingSpec
  deriving DecidableEq, Repr

/-- A typed object reference (`corev1.ObjectReference` restricted to the fields
the controller uses). -/
structure ObjectRef where
  apiVersion : String
  kind : String
  name : String
  deriving DecidableEq, Repr

/-- `K0sControlPlaneMachineTemplate`. -/
structure MachineTemplate where
  infrastructureRef : ObjectRef
  deriving DecidableEq, Repr

/-- `updateStrategy` of the control plane. -/
inductive UpdateStrategy where
  | recreate
  | inPlace
  deriving DecidableEq, Repr

/-- `K0sControlPlaneSpec`. -/
structure K0sControlPlaneSpec where
  version : String
  replicas : Nat
  updateStrategy : UpdateStrategy
  machineTemplate : MachineTemplate
  k0sConfigSpec : K0sConfigSpec
  deriving DecidableEq, Repr

/-- The `K0sControlPlane` object. -/
structure K0sControlPlane where
  name : String
  namespaceName : String
  spec : K0sControlPlaneSpec
  deriving DecidableEq, Repr

/-- A Cluster API `Machine` as produced by `generateMachine`. -/
structure Machine where
  name : String
  namespaceName : String
  labels : List (String × String)
  version : String
  clusterName : String
  failureDomain : Option String
  bootstrapConfigRefName : String
  infrastructureRef : ObjectRef
  deriving DecidableEq, Repr

/-- An unstructured infra machine, restricted to its annotations (the only part
`matchesTemplateClonedFrom` reads). -/
structure InfraMachine where
  anns : List (String × String)
  deriving DecidableEq, Repr

/-- From `generateMachine` (helper.go): the loop over `kcp.Spec.K0sConfigSpec.Args`
that looks for `--enable-worker` or `--enable-worker=true`. -/
def enableWorkerRequested (args : List String) : Bool :=
  args.any (fun arg => arg == "--enable-worker" || arg == "--enable-worker=true")

/-- The labels map built by `generateMachine` (helper.go lines 83-94): three
fixed labels (the cluster-name label is set to `kcp.Name`), plus the
control-plane-worker-enabled label when an enable-worker arg is present. -/
def generateMachineLabels (kcp : K0sControlPlane) : List (String × String) :=
  let base := [("cluster.x-k8s.io/cluster-name", kcp.name),
    ("cluster.x-k8s.io/control-plane", "true"),
    ("cluster.x-k8s.io/generateMachine-role", "control-plane")]
  if enableWorkerRequested kcp.spec.k0sConfigSpec.args then
    base ++ [("k0smotron.io/control-plane-worker-enabled", "true")]
  else
    base

/-- `generateMachine` (helper.go lines 80-122). -/
def generateMachine (name : String) (cluster : Cluster) (kcp : K0sControlPlane)
    (infraRef : ObjectRef) (failureDomain : Option String) : Machine :=
  { name := name
  , namespaceName := kcp.namespaceName
  , labels := generateMachineLabels kcp
  , version := kcp.spec.version
  , clusterName := cluster.name
  , failureDomain := failureDomain
  , bootstrapConfigRefName := name
  , infrastructureRef := infraRef }

/-- Go map indexing `annotations[key]`, which yields the empty string for an
absent key. -/
def getAnn (anns : List (String × String)) (key : String) : String :=
  (anns.lookup key).getD ""

/-- The group of `schema.FromAPIVersionAndKind`: the part of `apiVersion` before
the slash when there is exactly one slash, and the empty group otherwise. -/
def groupOfAPIVersion (apiVersion : String) : String :=
  if apiVersion.data.count (Char.ofNat 47) = 1 then
    String.mk (apiVersion.data.takeWhile (fun c => c ≠ Char.ofNat 47))
  else
    ""

/-- `GroupKind.String()` of apimachinery: `Kind` when the group is empty,
`Kind.group` otherwise. -/
def groupKindString (ref : ObjectRef) : String :=
  let g := groupOfAPIVersion ref.apiVersion
  if g = "" then ref.kind else ref.kind ++ "." ++ g

/-- `clusterv1.TemplateClonedFromNameAnnotation`. -/
def clonedFromNameAnnKey : String := "cluster.x-k8s.io/cloned-from-name"

/-- `clusterv1.TemplateClonedFromGroupKindAnnotation`. -/
def clonedFromGroupKindAnnKey : String := "cluster.x-k8s.io/cloned-from-groupkind"

/-- `matchesTemplateClonedFrom` (helper.go lines 250-264).  The map of infra
machines keyed by machine name is an association list. -/
def matchesTemplateClonedFrom (infraMachines : List (String × InfraMachine))
    (kcp : K0sControlPlane) (machine : Option Machine) : Bool :=
  match machine with
  | none => false
  | some m =>
    match infraMachines.lookup m.name with
    | none => false
    | some infraMachine =>
      getAnn infraMachine.anns clonedFromNameAnnKey
          == kcp.spec.machineTemplate.infrastructureRef.name
        && getAnn infraMachine.anns clonedFromGroupKindAnnKey
          == groupKindString kcp.spec.machineTemplate.infrastructureRef

/-- A condition on the `etcdmembers/<name>` status, as read by
`checkMachineLeft` (`conditionMap["type"]` and `conditionMap["status"]`). -/
structure EtcdCondition where
  condType : String
  condStatus : String
  deriving DecidableEq, Repr

/-- The `etcdmembers/<name>` object, restricted to `status.conditions`. -/
structure EtcdMember where
  conditions : List EtcdCondition
  deriving DecidableEq, Repr

/-- Outcome of the GET on `etcdmembers/<name>` issued by `checkMachineLeft`. -/
inductive GetEtcdMemberResult where
  | notFound
  | getErr (msg : String)
  | found (member : EtcdMember)
  deriving DecidableEq, Repr

/-- The constant `etcdMemberConditionTypeJoined` (helper.go line 45). -/
def etcdMemberConditionTypeJoined : String := "Joined"

/-- `checkMachineLeft` (helper.go lines 266-293): not-found means departed, any
other GET error propagates, and otherwise a `Joined` condition with status
`False` means departed. -/
def checkMachineLeft (res : GetEtcdMemberResult) : Except String Bool :=
  match res with
  | .notFound => .ok true
  | .getErr msg => .error ("error getting etcd member: " ++ msg)
  | .found member =>
    if member.conditions.any
        (fun c => c.condType == etcdMemberConditionTypeJoined && c.condStatus == "False") then
      .ok true
    else
      .ok false

/-- `checkMachineLeft` departure criterion, stated as a proposition. -/
def memberDeparted (member : EtcdMember) : Prop :=
  ∃ c ∈ member.conditions, c.condType = "Joined" ∧ c.condStatus = "False"

/-- Outcome of a single PATCH to the workload cluster API. -/
inductive PatchResult where
  | ok
  | notFound
  | failed (msg : String)
  deriving DecidableEq, Repr

/-- The merge-patch body sent to `etcdmembers/<name>` by
`markChildControlNodeToLeave`: `spec.leave=true` plus one annotation. -/
structure EtcdLeaveReq where
  leave : Bool
  annKey : String
  annValue : String
  deriving DecidableEq, Repr

/-- The merge-patch body sent to `controlnodes/<name>` by the fallback branch
of `markChildControlNodeToLeave`: one annotation. -/
structure ControlNodeLeaveReq where
  annKey : String
  annValue : String
  deriving DecidableEq, Repr

/-- What `markChildControlNodeToLeave` did: the requests it issued and the
error it returned. -/
structure MarkLeaveOutcome where
  etcdReq : Option EtcdLeaveReq
  controlNodeReq : Option ControlNodeLeaveReq
  err : Option String
  deriving DecidableEq, Repr

/-- `markChildControlNodeToLeave` (helper.go lines 295-323): patch the etcd
member with `spec.leave=true` and a `k0smotron.io/marked-to-leave-at`
annotation; on any failure of that patch fall back to annotating the control
node with `k0smotron.io/leave=true`, tolerating not-found on the fallback.
`now` stands for `time.Now().String()`; the results of the two patches are
inputs. -/
def markChildControlNodeToLeave (clientsetPresent : Bool) (now : String)
    (etcdPatch : PatchResult) (controlNodePatch : PatchResult) : MarkLeaveOutcome :=
  if clientsetPresent = false then ⟨none, none, none⟩
  else
    let req : EtcdLeaveReq := ⟨true, "k0smotron.io/marked-to-leave-at", now⟩
    match etcdPatch with
    | .ok => ⟨some req, none, none⟩
    | _ =>
      let cnReq : ControlNodeLeaveReq := ⟨"k0smotron.io/leave", "true"⟩
      match controlNodePatch with
      | .failed msg => ⟨some req, some cnReq, some ("error marking control node to leave: " ++ msg)⟩
      | _ => ⟨some req, some cnReq, none⟩

/-- Decision taken by the scale-down path for the machine selected for
deletion. -/
inductive ScaleDownDecision where
  | deleteMachine
  | markLeaveAndRequeue
  | abortWithError (msg : String)
  deriving DecidableEq, Repr

/-- Modelled from the spec: the pre-deletion etcd-departure gate of the Machine
Planner (`reconcileMachines` in `k0s_controlplane_controller.go`, a file absent
from the sources).  Before deleting the machine selected for scale-down the
controller calls `checkMachineLeft`; when the member has not departed it calls
`markChildControlNodeToLeave` and requeues without deleting; when departed it
proceeds to delete; a failed check aborts the pass. -/
def scaleDownEtcdGate (res : GetEtcdMemberResult) : ScaleDownDecision :=
  match checkMachineLeft res with
  | .error msg => .abortWithError msg
  | .ok true => .deleteMachine
  | .ok false => .markLeaveAndRequeue

/-- Go `strings.Join`. -/
def stringsJoin (sep : String) : List String → String
  | [] => ""
  | [s] => s
  | s :: rest => s ++ sep ++ stringsJoin sep rest

/-- The per-platform download URL built by `createAutopilotPlan`
(helper.go lines 352-354). -/
def archDownloadURL (ver arch : String) : String :=
  "https://get.k0sproject.io/" ++ ver ++ "/k0s-" ++ ver ++ "-" ++ arch

/-- The autopilot `Plan` content POSTed by `createAutopilotPlan`: its `spec.id`,
`spec.timestamp`, the `k0supdate` version, the platform/URL table, and the
rendered static discovery `nodes` JSON array. -/
structure AutopilotPlan where
  planId : String
  timestamp : String
  version : String
  platforms : List (String × String)
  nodesJSON : String
  deriving DecidableEq, Repr

/-- `createAutopilotPlan` (helper.go lines 342-405).  The machine names are the
ones returned by `collections.GetFilteredMachinesForCluster` with the
control-plane and active filters; `unixNow` stands for `time.Now().Unix()`.
The `nodes` field is rendered exactly as the Go string concatenation renders
it: `"[\"" + strings.Join(names, "\",\"") + "\"]"`. -/
def createAutopilotPlan (kcp : K0sControlPlane) (machineNames : List String)
    (unixNow : Nat) : AutopilotPlan :=
  let amd64URL0 := archDownloadURL kcp.spec.version "amd64"
  let arm64URL0 := archDownloadURL kcp.spec.version "arm64"
  let armURL0 := archDownloadURL kcp.spec.version "arm"
  let override := kcp.spec.k0sConfigSpec.downloadURL
  let amd64URL := if override ≠ "" then override else amd64URL0
  let arm64URL := if override ≠ "" then override else arm64URL0
  let armURL := if override ≠ "" then override else armURL0
  let ts := toString unixNow
  { planId := "id-" ++ kcp.name ++ "-" ++ ts
  , timestamp := ts
  , version := kcp.spec.version
  , platforms := [("linux-amd64", amd64URL), ("linux-arm64", arm64URL), ("linux-arm", armURL)]
  , nodesJSON := "[\"" ++ stringsJoin "\",\"" machineNames ++ "\"]" }

/-- The JSON array that lists exactly the given names, one quoted element per
name: the reading of the claim that the plan targets are exactly the names of
the current active control-plane machines. -/
def exactNodesJSON (names : List String) : String :=
  "[" ++ stringsJoin "," (names.map (fun n => "\"" ++ n ++ "\"")) ++ "]"

/-- Inject a fact at a document path only when the user key is absent. -/
def injectOpt {α : Type} (cur : Option α) (fact : Option α) : Option α :=
  match cur with
  | some v => some v
  | none => fact

/-- The first CIDR block of a network range, when the range and a first block
exist. -/
def firstBlock (blocks : Option (List String)) : Option String :=
  match blocks with
  | some (c :: _) => some c
  | _ => none

/-- The document with every key absent. -/
def emptyK0sDoc : K0sDoc := ⟨none, none, none, none, none, none, none, none⟩

/-- Modelled from the spec: the per-document rules of
`enrichK0sConfigWithClusterData` (`k0s_controlplane_controller.go`, a file
absent from the sources; behavior pinned by `TestK0sConfigEnrichment`): inject
`spec.network.serviceCIDR`, `spec.network.podCIDR` and
`spec.network.clusterDomain` from the cluster network facts only when the
corresponding user key is absent, and ensure `apiVersion` and `kind`. -/
def enrichDoc (net : ClusterNetwork) (d : K0sDoc) : K0sDoc :=
  { apiVersion := injectOpt d.apiVersion (some "k0s.k0sproject.io/v1beta1")
  , kind := injectOpt d.kind (some "ClusterConfig")
  , serviceCIDR := injectOpt d.serviceCIDR (firstBlock net.servicesCIDRBlocks)
  , podCIDR := injectOpt d.podCIDR (firstBlock net.podsCIDRBlocks)
  , clusterDomain := injectOpt d.clusterDomain
      (if net.serviceDomain = "" then none else some net.serviceDomain)
  , externalAddress := d.externalAddress
  , sans := d.sans
  , nllbEnabled := d.nllbEnabled }

/-- Modelled from the spec: `enrichK0sConfigWithClusterData`
(`k0s_controlplane_controller.go`, absent from the sources; behavior pinned by
`TestK0sConfigEnrichment`): when the cluster has no cluster network the user
document is returned unchanged (`nil` stays `nil`); otherwise an absent user
document starts from the empty document and the enrichment rules are applied. -/
def enrichK0sConfigWithClusterData (cluster : Cluster) (cfg : Option K0sDoc) :
    Option K0sDoc :=
  match cluster.clusterNetwork with
  | none => cfg
  | some net => some (enrichDoc net (cfg.getD emptyK0sDoc))

/-- Modelled from the spec: the endpoint/NLLB/tunneling rewrite that
`reconcileConfig` (`k0s_controlplane_controller.go`, absent from the sources)
applies to a present k0s document.  Behavior pinned by
`TestReconcileK0sConfigWithNLLBEnabled`, `TestReconcileK0sConfigWithNLLBDisabled`
and `TestReconcileK0sConfigTunnelingServerAddressToApiSans`: when
`spec.network.nodeLocalLoadBalancing.enabled` is `true` the control-plane
endpoint host is prepended to `spec.api.sans` (created when absent) and
`spec.api.externalAddress` is left alone; otherwise `spec.api.externalAddress`
is set to the endpoint host and `spec.api.sans` is left alone; afterwards a
non-empty `tunneling.serverAddress` is appended to `spec.api.sans`. -/
def applyClusterEndpointConfig (cluster : Cluster) (tun : TunnelingSpec)
    (d : K0sDoc) : K0sDoc :=
  let host := cluster.controlPlaneEndpoint.host
  let d1 :=
    if d.nllbEnabled = some true then
      { d with sans := some (host :: d.sans.getD []) }
    else
      { d with externalAddress := some host }
  if tun.serverAddress ≠ "" then
    { d1 with sans := some (d1.sans.getD [] ++ [tun.serverAddress]) }
  else
    d1

/-- Modelled from the spec: `reconcileConfig` on the embedded document — the
enrichment step followed, when a document is present, by the endpoint/NLLB/
tunneling rewrite. -/
def reconcileConfigModel (cluster : Cluster) (kcp : K0sControlPlane) : Option K0sDoc :=
  match enrichK0sConfigWithClusterData cluster kcp.spec.k0sConfigSpec.k0s with
  | none => none
  | some d => some (applyClusterEndpointConfig cluster kcp.spec.k0sConfigSpec.tunneling d)

/-- The cluster entry of a kubeconfig secret: the server URL and the optional
proxy URL. -/
structure ClusterEntry where
  server : String
  proxyURL : Option String
  deriving DecidableEq, Repr

/-- Which of the secrets `reconcileKubeconfig` depends on already exist. -/
structure KubeconfigState where
  caExists : Bool
  canonicalExists : Bool
  proxiedExists : Bool
  tunneledExists : Bool
  deriving DecidableEq, Repr

/-- What `reconcileKubeconfig` did: the kubeconfig secrets written (name and
cluster entry) and the error returned. -/
structure KubeconfigOutcome where
  written : List (String × ClusterEntry)
  err : Option String
  deriving DecidableEq, Repr

/-- The canonical `<cluster>-kubeconfig` step: generated only when it does not
yet exist, with the control-plane endpoint as server URL. -/
def canonicalKubeconfigStep (cluster : Cluster) (st : KubeconfigState) : KubeconfigOutcome :=
  if st.canonicalExists then ⟨[], none⟩
  else
    ⟨[(cluster.name ++ "-kubeconfig",
       ⟨"https://" ++ cluster.controlPlaneEndpoint.host ++ ":"
          ++ toString cluster.controlPlaneEndpoint.port, none⟩)], none⟩

/-- Modelled from the spec: `reconcileKubeconfig`
(`k0s_controlplane_controller.go`, absent from the sources; behavior pinned by
the `TestReconcileKubeconfig*` tests): fail with no write when the
control-plane endpoint is empty or the Cluster CA secret is missing; when
tunneling is enabled write the `-proxied`/`-tunneled` variant when it does not
yet exist and return a non-nil error from the remainder of the pipeline; and
otherwise ensure the canonical kubeconfig secret. -/
def reconcileKubeconfig (cluster : Cluster) (kcp : K0sControlPlane)
    (st : KubeconfigState) : KubeconfigOutcome :=
  let ep := cluster.controlPlaneEndpoint
  if ep.host = "" ∨ ep.port = 0 then
    ⟨[], some "control plane endpoint is not yet set"⟩
  else if st.caExists = false then
    ⟨[], some "cluster certificate authority secret not found"⟩
  else
    let tun := kcp.spec.k0sConfigSpec.tunneling
    if tun.enabled && tun.mode == "proxy" then
      if st.proxiedExists then canonicalKubeconfigStep cluster st
      else
        ⟨[(cluster.name ++ "-proxied-kubeconfig",
           ⟨"https://" ++ ep.host ++ ":" ++ toString ep.port,
            some ("http://" ++ tun.serverAddress ++ ":" ++ toString tun.tunnelingNodePort)⟩)],
         some "proxied kubeconfig written; canonical pipeline incomplete"⟩
    else if tun.enabled && tun.mode == "tunnel" then
      if st.tunneledExists then canonicalKubeconfigStep cluster st
      else
        ⟨[(cluster.name ++ "-tunneled-kubeconfig",
           ⟨"https://" ++ tun.serverAddress ++ ":" ++ toString tun.tunnelingNodePort, none⟩)],
         some "tunneled kubeconfig written; canonical pipeline incomplete"⟩
    else
      canonicalKubeconfigStep cluster st

/-- What the dispatcher observes when it fetches the primary object and its
owner, plus the outcome of the later stages when they run. -/
structure DispatchInput where
  cpFound : Bool
  ownerClusterFound : Bool
  clusterPaused : Bool
  cpPausedAnn : Bool
  cpDeleted : Bool
  stagesErr : Option String
  deriving DecidableEq, Repr

/-- A `ctrl.Result`. -/
structure ReconcileResult where
  requeue : Bool
  requeueAfterSeconds : Nat
  deriving DecidableEq, Repr

/-- The outcome of a `Reconcile` call: the result, the error, and whether the
later stages (enricher, PKI, tunneling, machine planner, status writer) ran. -/
structure DispatchOutcome where
  result : ReconcileResult
  err : Option String
  ranStages : Bool
  deriving DecidableEq, Repr

/-- Modelled from the spec: the short-circuiting preconditions of `Reconcile`
(`k0s_controlplane_controller.go`, absent from the sources; behavior pinned by
`TestReconcileNoK0sControlPlane`,
`TestReconcileReturnErrorWhenOwnerClusterIsMissing`, `TestReconcilePausedCluster`
and `TestReconcilePausedK0sControlPlane`): not-found returns the empty result;
a missing owner cluster requeues after 20 seconds; a paused cluster or a paused
annotation returns the empty result; a deletion timestamp runs cleanup and
returns the empty result; otherwise the stages run. -/
def reconcileDispatch (inp : DispatchInput) : DispatchOutcome :=
  if inp.cpFound = false then ⟨⟨false, 0⟩, none, false⟩
  else if inp.ownerClusterFound = false then ⟨⟨true, 20⟩, none, false⟩
  else if inp.clusterPaused || inp.cpPausedAnn then ⟨⟨false, 0⟩, none, false⟩
  else if inp.cpDeleted then ⟨⟨false, 0⟩, none, false⟩
  else ⟨⟨false, 0⟩, inp.stagesErr, true⟩

/-- Tunneling disabled (the zero value of the Go struct). -/
def tunnelingOff : TunnelingSpec := ⟨false, "", "", 0⟩

/-- The infra machine template reference used by the unit tests
(`createClusterWithControlPlane`). -/
def exInfraRef : ObjectRef :=
  ⟨"infrastructure.cluster.x-k8s.io/v1beta1", "GenericInfrastructureMachineTemplate", "infra-foo"⟩

/-- A control plane mirroring `createClusterWithControlPlane`. -/
def exKcp : K0sControlPlane :=
  ⟨"kcp-foo", "ns", ⟨"v1.30.0", 1, .recreate, ⟨exInfraRef⟩, ⟨none, [], "", tunnelingOff⟩⟩⟩

/-- The control-plane endpoint used by the unit tests. -/
def exEndpoint : APIEndpoint := ⟨"test.endpoint", 6443⟩

/-- A cluster mirroring `createClusterWithControlPlane` (no cluster network,
endpoint `test.endpoint:6443`). -/
def exCluster : Cluster := ⟨"kcp-foo", "ns", none, exEndpoint, false⟩

/-- A control plane whose name differs from its cluster and whose args carry
`--enable-worker=true` (but not `--enable-worker`). -/
def workerArgKcp : K0sControlPlane :=
  ⟨"cp", "ns", ⟨"v1.30.0", 1, .recreate, ⟨exInfraRef⟩,
    ⟨none, ["--enable-worker=true"], "", tunnelingOff⟩⟩⟩

/-- A cluster named differently from `workerArgKcp`. -/
def workerArgCluster : Cluster := ⟨"cl", "ns", none, exEndpoint, false⟩

/-- An infra machine carrying lineage annotations matching `exInfraRef`. -/
def exInfraMachine : InfraMachine :=
  ⟨[("cluster.x-k8s.io/cloned-from-name", "infra-foo"),
    ("cluster.x-k8s.io/cloned-from-groupkind",
     "GenericInfrastructureMachineTemplate.infrastructure.cluster.x-k8s.io")]⟩

/-- A machine generated for `exKcp`. -/
def exMachine : Machine := generateMachine "kcp-foo-0" exCluster exKcp exInfraRef none

/-- The user document of `TestReconcileK0sConfigWithNLLBDisabled`. -/
def nllbDisabledDoc : K0sDoc :=
  ⟨some "k0s.k0sproject.io/v1beta1", some "ClusterConfig",
   none, none, none, none, some ["test.com"], none⟩

/-- The user document of `TestReconcileK0sConfigWithNLLBEnabled`. -/
def nllbEnabledDoc : K0sDoc :=
  ⟨some "k0s.k0sproject.io/v1beta1", some "ClusterConfig",
   none, none, none, none, some ["test.com"], some true⟩

/-- The tunneling spec of `TestReconcileK0sConfigTunnelingServerAddressToApiSans`. -/
def tunnelingWithServer : TunnelingSpec := ⟨false, "", "my-tunneling-server-address.com", 0⟩

/-- The cluster network of the CIDR cases of `TestK0sConfigEnrichment`. -/
def enrichNetEx : ClusterNetwork := ⟨some ["10.96.0.0/12"], some ["10.244.0.0/16"], ""⟩

/-- A cluster carrying `enrichNetEx`. -/
def enrichClusterEx : Cluster := ⟨"c", "ns", some enrichNetEx, ⟨"", 0⟩, false⟩

/-- The user document of the override case of `TestK0sConfigEnrichment`. -/
def enrichUserDoc : K0sDoc :=
  ⟨none, none, some "10.98.0.0/12", none, none, none, none, none⟩

/-- The cluster network of the service-domain case of `TestK0sConfigEnrichment`. -/
def enrichDomainNet : ClusterNetwork := ⟨none, none, "cluster.local"⟩

/-- A cluster carrying `enrichDomainNet`. -/
def enrichDomainCluster : Cluster := ⟨"c", "ns", some enrichDomainNet, ⟨"", 0⟩, false⟩

/-- The control plane of `TestReconcileKubeconfigTunnelingModeProxy`. -/
def proxyKcp : K0sControlPlane :=
  ⟨"kcp-foo", "ns", ⟨"v1.30.0", 1, .recreate, ⟨exInfraRef⟩,
    ⟨none, [], "", ⟨true, "proxy", "test.com", 9999⟩⟩⟩⟩

/-- The control plane of `TestReconcileKubeconfigTunnelingModeTunnel`. -/
def tunnelKcp : K0sControlPlane :=
  ⟨"kcp-foo", "ns", ⟨"v1.30.0", 1, .recreate, ⟨exInfraRef⟩,
    ⟨none, [], "", ⟨true, "tunnel", "test.com", 9999⟩⟩⟩⟩

/-- CA and canonical kubeconfig present, neither variant present (the state of
the tunneling kubeconfig tests). -/
def kubeStateNoVariant : KubeconfigState := ⟨true, true, false, false⟩

theorem strData_append (a b : String) : (a ++ b).data = a.data ++ b.data := rfl

theorem strExt {a b : String} (h : a.data = b.data) : a = b := by
  cases a
  cases b
  exact congrArg String.mk h

theorem strAppend_assoc (a b c : String) : (a ++ b) ++ c = a ++ (b ++ c) := by
  apply strExt
  simp [strData_append, List.append_assoc]

/-- Wrapping every element of a nonempty join in `q` is the same as joining the
`q`-wrapped elements on the inner separator. -/
theorem stringsJoin_wrap (q mid : String) (names : List String) (h : names ≠ []) :
    q ++ stringsJoin (q ++ mid ++ q) names ++ q
      = stringsJoin mid (names.map (fun n => q ++ n ++ q)) := by
  induction names with
  | nil => exact absurd rfl h
  | cons n rest ih =>
    cases rest with
    | nil => simp [stringsJoin]
    | cons m t =>
      have ih2 := ih (by simp)
      simp only [stringsJoin, List.map] at ih2 ⊢
      rw [← ih2]
      simp [strAppend_assoc]

/-- For a nonempty name list the `nodes` array rendered by the Go string
concatenation is the array listing exactly the names. -/
theorem strLit_merge (x : String) : ("[" : String) ++ ("\"" ++ x) = "[\"" ++ x := by
  rw [← strAppend_assoc]
  have h4 : ("[" ++ "\"" : String) = "[\"" := by decide
  rw [h4]

/-- For a nonempty name list the `nodes` array rendered by the Go string
concatenation is the array listing exactly the names. -/
theorem nodesJSON_eq_exact (names : List String) (h : names ≠ []) :
    "[\"" ++ stringsJoin "\",\"" names ++ "\"]" = exactNodesJSON names := by
  have h3 : ("\"" ++ "," ++ "\"" : String) = "\",\"" := by decide
  rw [exactNodesJSON, ← stringsJoin_wrap "\"" "," names h, h3]
  simp [strAppend_assoc, strLit_merge]

/-- C9 (amended): every machine generated by the planner carries exactly the
labels `cluster.x-k8s.io/cluster-name=<control-plane name>`,
`cluster.x-k8s.io/control-plane=true` and
`cluster.x-k8s.io/generateMachine-role=control-plane`, plus
`k0smotron.io/control-plane-worker-enabled=true` exactly when `--enable-worker`
or `--enable-worker=true` appears in `k0sConfigSpec.args`. -/
theorem c9_machine_labels_amended (name : String) (cluster : Cluster)
    (kcp : K0sControlPlane) (infraRef : ObjectRef) (failureDomain : Option String)
    (k v : String) :
    ((k, v) ∈ (generateMachine name cluster kcp infraRef failureDomain).labels) ↔
      ((k = "cluster.x-k8s.io/cluster-name" ∧ v = kcp.name) ∨
       (k = "cluster.x-k8s.io/control-plane" ∧ v = "true") ∨
       (k = "cluster.x-k8s.io/generateMachine-role" ∧ v = "control-plane") ∨
       (enableWorkerRequested kcp.spec.k0sConfigSpec.args = true ∧
        k = "k0smotron.io/control-plane-worker-enabled" ∧ v = "true")) := by
  unfold generateMachine generateMachineLabels
  by_cases hw : enableWorkerRequested kcp.spec.k0sConfigSpec.args
  · simp [hw, Prod.ext_iff]
  · simp [hw, Prod.ext_iff]

/-- C9 counterexample: with a control plane named `cp` owned by a cluster named
`cl` and args `["--enable-worker=true"]`, the generated machine carries the
worker-enabled label although `--enable-worker` does not appear in the args,
and its cluster-name label holds the control-plane name `cp`, not the cluster
name `cl`. -/
theorem c9_machine_labels_counterexample :
    ("--enable-worker" ∉ workerArgKcp.spec.k0sConfigSpec.args) ∧
    (("k0smotron.io/control-plane-worker-enabled", "true") ∈
      (generateMachine "cp-0" workerArgCluster workerArgKcp exInfraRef none).labels) ∧
    (("cluster.x-k8s.io/cluster-name", workerArgCluster.name) ∉
      (generateMachine "cp-0" workerArgCluster workerArgKcp exInfraRef none).labels) ∧
    (("cluster.x-k8s.io/cluster-name", workerArgKcp.name) ∈
      (generateMachine "cp-0" workerArgCluster workerArgKcp exInfraRef none).labels) := by
  decide

/-- C10: `matchesTemplateClonedFrom` returns true exactly when the machine is
present, the infra machine map contains an entry under the machine name, and
that entry's cloned-from-name and cloned-from-groupkind annotations equal the
current `machineTemplate.infrastructureRef` name and group-kind; in particular
a machine whose infra machine is missing from the map does not match. -/
theorem c10_matches_template_cloned_from (infraMachines : List (String × InfraMachine))
    (kcp : K0sControlPlane) (machine : Option Machine) :
    (matchesTemplateClonedFrom infraMachines kcp machine = true ↔
      ∃ m, machine = some m ∧ ∃ im, infraMachines.lookup m.name = some im ∧
        getAnn im.anns clonedFromNameAnnKey
          = kcp.spec.machineTemplate.infrastructureRef.name ∧
        getAnn im.anns clonedFromGroupKindAnnKey
          = groupKindString kcp.spec.machineTemplate.infrastructureRef) ∧
    (∀ m, machine = some m → infraMachines.lookup m.name = none →
      matchesTemplateClonedFrom infraMachines kcp machine = false) := by
  constructor
  · cases machine with
    | none => simp [matchesTemplateClonedFrom]
    | some m =>
      cases h : infraMachines.lookup m.name with
      | none => simp [matchesTemplateClonedFrom, h]
      | some im =>
        simp [matchesTemplateClonedFrom, h, Bool.and_eq_true, beq_iff_eq]
  · intro m hm hl
    subst hm
    simp [matchesTemplateClonedFrom, hl]

/-- C10 witness: a machine with no infra machine in the map does not match, and
one whose infra machine carries the matching lineage annotations matches. -/
theorem c10_matches_template_cloned_from_witness :
    matchesTemplateClonedFrom [] exKcp (some exMachine) = false ∧
    matchesTemplateClonedFrom [(exMachine.name, exInfraMachine)] exKcp (some exMachine) = true := by
  constructor
  · exact (c10_matches_template_cloned_from [] exKcp (some exMachine)).2 exMachine rfl rfl
  · exact (c10_matches_template_cloned_from [(exMachine.name, exInfraMachine)] exKcp
      (some exMachine)).1.mpr
      ⟨exMachine, rfl, exInfraMachine, by decide, by decide, by decide⟩

/-- C1: for a machine selected for scale-down deletion, `checkMachineLeft`
reports departed exactly when the etcd member is not found or carries a
`Joined` condition with status `False`; when the member has not departed the
reconcile pass marks it to leave and requeues without deleting;
`markChildControlNodeToLeave` patches the etcd member with `spec.leave=true`
and a `k0smotron.io/marked-to-leave-at` timestamp annotation, and on failure of
that patch falls back to annotating the control node with
`k0smotron.io/leave=true`, tolerating not-found on the fallback. -/
theorem c1_scale_down_etcd_departure (res : GetEtcdMemberResult) (now : String)
    (cnPatch : PatchResult) (emsg : String) :
    (checkMachineLeft res = Except.ok true ↔
      res = GetEtcdMemberResult.notFound ∨
        ∃ member, res = GetEtcdMemberResult.found member ∧ memberDeparted member) ∧
    (checkMachineLeft res = Except.ok false →
      scaleDownEtcdGate res = ScaleDownDecision.markLeaveAndRequeue) ∧
    (markChildControlNodeToLeave true now PatchResult.ok cnPatch =
      ⟨some ⟨true, "k0smotron.io/marked-to-leave-at", now⟩, none, none⟩) ∧
    (markChildControlNodeToLeave true now (PatchResult.failed emsg) PatchResult.notFound =
      ⟨some ⟨true, "k0smotron.io/marked-to-leave-at", now⟩,
       some ⟨"k0smotron.io/leave", "true"⟩, none⟩) := by
  refine ⟨?_, ?_, rfl, rfl⟩
  · cases res with
    | notFound => simp [checkMachineLeft]
    | getErr msg => simp [checkMachineLeft]
    | found member =>
      by_cases hb : member.conditions.any
          (fun c => c.condType == etcdMemberConditionTypeJoined && c.condStatus == "False")
      · have hd : memberDeparted member := by
          simpa [memberDeparted, List.any_eq_true, Bool.and_eq_true, beq_iff_eq,
            etcdMemberConditionTypeJoined] using hb
        simp [checkMachineLeft, hb, hd]
      · have hd : ¬ memberDeparted member := by
          simpa [memberDeparted, List.any_eq_true, Bool.and_eq_true, beq_iff_eq,
            etcdMemberConditionTypeJoined] using hb
        simp [checkMachineLeft, hb, hd]
  · intro h
    simp [scaleDownEtcdGate, h]

/-- C1 witness: a member with a `Joined=False` condition is departed; a member
whose `Joined` condition is `True` makes the pass mark-and-requeue. -/
theorem c1_scale_down_etcd_departure_witness :
    checkMachineLeft (GetEtcdMemberResult.found ⟨[⟨"Joined", "False"⟩]⟩) = Except.ok true ∧
    scaleDownEtcdGate (GetEtcdMemberResult.found ⟨[⟨"Joined", "True"⟩]⟩)
      = ScaleDownDecision.markLeaveAndRequeue := by
  constructor
  · exact (c1_scale_down_etcd_departure (GetEtcdMemberResult.found ⟨[⟨"Joined", "False"⟩]⟩)
      "now" PatchResult.ok "e").1.mpr
      (Or.inr ⟨⟨[⟨"Joined", "False"⟩]⟩, rfl, ⟨"Joined", "False"⟩, by decide, rfl, rfl⟩)
  · exact (c1_scale_down_etcd_departure (GetEtcdMemberResult.found ⟨[⟨"Joined", "True"⟩]⟩)
      "now" PatchResult.ok "e").2.1 rfl

/-- C2 (amended): the autopilot plan id is `id-<control-plane name>-<unix
timestamp>`, the three platforms `linux-amd64`, `linux-arm64`, `linux-arm` are
enumerated with URL `https://get.k0sproject.io/<version>/k0s-<version>-<arch>`
unless `k0sConfigSpec.downloadURL` overrides all three, and whenever at least
one active control-plane machine exists the controller targets are exactly the
machine names. -/
theorem c2_autopilot_plan_amended (kcp : K0sControlPlane) (machineNames : List String)
    (unixNow : Nat) (h : machineNames ≠ []) :
    (createAutopilotPlan kcp machineNames unixNow).planId
        = "id-" ++ kcp.name ++ "-" ++ toString unixNow ∧
    (kcp.spec.k0sConfigSpec.downloadURL = "" →
      (createAutopilotPlan kcp machineNames unixNow).platforms =
        [("linux-amd64", archDownloadURL kcp.spec.version "amd64"),
         ("linux-arm64", archDownloadURL kcp.spec.version "arm64"),
         ("linux-arm", archDownloadURL kcp.spec.version "arm")]) ∧
    (kcp.spec.k0sConfigSpec.downloadURL ≠ "" →
      (createAutopilotPlan kcp machineNames unixNow).platforms =
        [("linux-amd64", kcp.spec.k0sConfigSpec.downloadURL),
         ("linux-arm64", kcp.spec.k0sConfigSpec.downloadURL),
         ("linux-arm", kcp.spec.k0sConfigSpec.downloadURL)]) ∧
    (createAutopilotPlan kcp machineNames unixNow).nodesJSON = exactNodesJSON machineNames := by
  refine ⟨rfl, ?_, ?_, ?_⟩
  · intro h0
    simp [createAutopilotPlan, h0]
  · intro h0
    simp [createAutopilotPlan, h0]
  · exact nodesJSON_eq_exact machineNames h

/-- C2 counterexample: with no active control-plane machines the rendered
`nodes` array is not the empty array the claim calls for, but the array holding
a single empty-string target. -/
theorem c2_autopilot_plan_counterexample :
    (createAutopilotPlan exKcp [] 0).nodesJSON ≠ exactNodesJSON [] ∧
    (createAutopilotPlan exKcp [] 0).nodesJSON = exactNodesJSON [""] := by
  decide

/-- C2 witness: one machine named `kcp-foo-0` at timestamp 5. -/
theorem c2_autopilot_plan_amended_witness :
    ((["kcp-foo-0"] : List String) ≠ []) ∧
    (createAutopilotPlan exKcp ["kcp-foo-0"] 5).planId
      = "id-" ++ exKcp.name ++ "-" ++ toString 5 ∧
    (createAutopilotPlan exKcp ["kcp-foo-0"] 5).nodesJSON = exactNodesJSON ["kcp-foo-0"] := by
  refine ⟨by decide, (c2_autopilot_plan_amended exKcp ["kcp-foo-0"] 5 (by decide)).1,
    (c2_autopilot_plan_amended exKcp ["kcp-foo-0"] 5 (by decide)).2.2.2⟩

theorem injectOpt_idem {α : Type} (a b : Option α) :
    injectOpt (injectOpt a b) b = injectOpt a b := by
  cases a with
  | some v => rfl
  | none => cases b <;> rfl

/-- The enrichment model reproduces the no-network/no-document case of
`TestK0sConfigEnrichment`. -/
theorem enrich_matches_test_empty :
    enrichK0sConfigWithClusterData ⟨"c", "ns", none, ⟨"", 0⟩, false⟩ none = none := by
  decide

/-- The enrichment model reproduces the both-CIDRs case of
`TestK0sConfigEnrichment`. -/
theorem enrich_matches_test_cidrs :
    enrichK0sConfigWithClusterData enrichClusterEx none =
      some ⟨some "k0s.k0sproject.io/v1beta1", some "ClusterConfig",
        some "10.96.0.0/12", some "10.244.0.0/16", none, none, none, none⟩ := by
  decide

/-- The enrichment model reproduces the user-override case of
`TestK0sConfigEnrichment`: the user serviceCIDR wins, the pod CIDR is
injected. -/
theorem enrich_matches_test_override :
    enrichK0sConfigWithClusterData enrichClusterEx (some enrichUserDoc) =
      some ⟨some "k0s.k0sproject.io/v1beta1", some "ClusterConfig",
        some "10.98.0.0/12", some "10.244.0.0/16", none, none, none, none⟩ := by
  decide

/-- The enrichment model reproduces the service-domain case of
`TestK0sConfigEnrichment`. -/
theorem enrich_matches_test_domain :
    enrichK0sConfigWithClusterData enrichDomainCluster none =
      some ⟨some "k0s.k0sproject.io/v1beta1", some "ClusterConfig",
        none, none, some "cluster.local", none, none, none⟩ := by
  decide

/-- The config model reproduces `TestReconcileK0sConfigNotProvided`: with no
user document and no cluster network the document stays absent. -/
theorem config_matches_test_not_provided :
    reconcileConfigModel exCluster exKcp = none := by
  decide

/-- The config model reproduces `TestReconcileK0sConfigWithNLLBEnabled`: the
endpoint host is prepended to the sans and no external address is set. -/
theorem config_matches_test_nllb_enabled :
    reconcileConfigModel exCluster
      ⟨"kcp-foo", "ns", ⟨"v1.30.0", 1, .recreate, ⟨exInfraRef⟩,
        ⟨some nllbEnabledDoc, [], "", tunnelingOff⟩⟩⟩ =
      some ⟨some "k0s.k0sproject.io/v1beta1", some "ClusterConfig",
        none, none, none, none, some ["test.endpoint", "test.com"], some true⟩ := by
  decide

/-- The config model reproduces `TestReconcileK0sConfigWithNLLBDisabled`: the
external address is set to the endpoint host and the sans are untouched. -/
theorem config_matches_test_nllb_disabled :
    reconcileConfigModel exCluster
      ⟨"kcp-foo", "ns", ⟨"v1.30.0", 1, .recreate, ⟨exInfraRef⟩,
        ⟨some nllbDisabledDoc, [], "", tunnelingOff⟩⟩⟩ =
      some ⟨some "k0s.k0sproject.io/v1beta1", some "ClusterConfig",
        none, none, none, some "test.endpoint", some ["test.com"], none⟩ := by
  decide

/-- The config model reproduces
`TestReconcileK0sConfigTunnelingServerAddressToApiSans`: the tunneling server
address is appended to the sans. -/
theorem config_matches_test_tunneling_sans :
    reconcileConfigModel exCluster
      ⟨"kcp-foo", "ns", ⟨"v1.30.0", 1, .recreate, ⟨exInfraRef⟩,
        ⟨some nllbDisabledDoc, [], "", tunnelingWithServer⟩⟩⟩ =
      some ⟨some "k0s.k0sproject.io/v1beta1", some "ClusterConfig",
        none, none, none, some "test.endpoint",
        some ["test.com", "my-tunneling-server-address.com"], none⟩ := by
  decide

/-- C3 (amended): the endpoint/NLLB/tunneling rewrite sets
`spec.api.externalAddress` to the control-plane endpoint host exactly when
`spec.network.nodeLocalLoadBalancing.enabled` is not `true`; when NLLB is
enabled it instead prepends the endpoint host to `spec.api.sans` (creating the
list if absent) and leaves the external address alone; and it appends
`tunneling.serverAddress` to `spec.api.sans` when that address is non-empty. -/
theorem c3_nllb_sans_amended (cluster : Cluster) (tun : TunnelingSpec) (d : K0sDoc) :
    (d.nllbEnabled ≠ some true →
      (applyClusterEndpointConfig cluster tun d).externalAddress
          = some cluster.controlPlaneEndpoint.host ∧
      (applyClusterEndpointConfig cluster tun d).sans
          = (if tun.serverAddress = "" then d.sans
             else some (d.sans.getD [] ++ [tun.serverAddress]))) ∧
    (d.nllbEnabled = some true →
      (applyClusterEndpointConfig cluster tun d).externalAddress = d.externalAddress ∧
      (applyClusterEndpointConfig cluster tun d).sans
          = some ((cluster.controlPlaneEndpoint.host :: d.sans.getD [])
              ++ (if tun.serverAddress = "" then [] else [tun.serverAddress]))) := by
  constructor
  · intro hn
    by_cases hs : tun.serverAddress = "" <;>
      simp [applyClusterEndpointConfig, hn, hs]
  · intro hn
    by_cases hs : tun.serverAddress = "" <;>
      simp [applyClusterEndpointConfig, hn, hs]

/-- C3 counterexample: at the input of `TestReconcileK0sConfigWithNLLBDisabled`
(NLLB not enabled, endpoint host `test.endpoint`, user sans `["test.com"]`) the
rewrite does not append the endpoint host to `spec.api.sans` — it only sets the
external address — contradicting the claim that the host is appended to the
sans for every document. -/
theorem c3_nllb_sans_counterexample :
    ("test.endpoint" ∉
      ((applyClusterEndpointConfig exCluster tunnelingOff nllbDisabledDoc).sans.getD [])) ∧
    (applyClusterEndpointConfig exCluster tunnelingOff nllbDisabledDoc).externalAddress
      = some "test.endpoint" := by
  decide

/-- C3 witness: the NLLB-enabled document of the unit tests, with a tunneling
server address present. -/
theorem c3_nllb_sans_amended_witness :
    (nllbEnabledDoc.nllbEnabled = some true) ∧
    (applyClusterEndpointConfig exCluster tunnelingWithServer nllbEnabledDoc).sans
      = some ((exCluster.controlPlaneEndpoint.host :: nllbEnabledDoc.sans.getD [])
          ++ (if tunnelingWithServer.serverAddress = "" then []
              else [tunnelingWithServer.serverAddress])) := by
  exact ⟨rfl, ((c3_nllb_sans_amended exCluster tunnelingWithServer nllbEnabledDoc).2 rfl).2⟩

/-- C4: enrichment injects `spec.network.serviceCIDR`, `spec.network.podCIDR`
and `spec.network.clusterDomain` from the cluster network facts only when the
corresponding user key is absent; a value the user provided at any enriched
path is present unchanged in the output; and with no user document and no
cluster network the output is `nil`. -/
theorem c4_enrichment_injection (cluster : Cluster) (net : ClusterNetwork) (d : K0sDoc) :
    (cluster.clusterNetwork = none → enrichK0sConfigWithClusterData cluster none = none) ∧
    (cluster.clusterNetwork = some net →
      ∀ out, enrichK0sConfigWithClusterData cluster (some d) = some out →
        (d.serviceCIDR = none → out.serviceCIDR = firstBlock net.servicesCIDRBlocks) ∧
        (∀ v, d.serviceCIDR = some v → out.serviceCIDR = some v) ∧
        (d.podCIDR = none → out.podCIDR = firstBlock net.podsCIDRBlocks) ∧
        (∀ v, d.podCIDR = some v → out.podCIDR = some v) ∧
        (d.clusterDomain = none → out.clusterDomain =
            (if net.serviceDomain = "" then none else some net.serviceDomain)) ∧
        (∀ v, d.clusterDomain = some v → out.clusterDomain = some v) ∧
        (∀ v, d.apiVersion = some v → out.apiVersion = some v) ∧
        (∀ v, d.kind = some v → out.kind = some v) ∧
        out.externalAddress = d.externalAddress ∧
        out.sans = d.sans ∧
        out.nllbEnabled = d.nllbEnabled) := by
  constructor
  · intro h
    simp [enrichK0sConfigWithClusterData, h]
  · intro h out hout
    simp [enrichK0sConfigWithClusterData, h] at hout
    subst hout
    refine ⟨?_, ?_, ?_, ?_, ?_, ?_, ?_, ?_, rfl, rfl, rfl⟩
    · intro h1
      simp [enrichDoc, injectOpt, h1]
    · intro v hv
      simp [enrichDoc, injectOpt, hv]
    · intro h1
      simp [enrichDoc, injectOpt, h1]
    · intro v hv
      simp [enrichDoc, injectOpt, hv]
    · intro h1
      simp [enrichDoc, injectOpt, h1]
    · intro v hv
      simp [enrichDoc, injectOpt, hv]
    · intro v hv
      simp [enrichDoc, injectOpt, hv]
    · intro v hv
      simp [enrichDoc, injectOpt, hv]

/-- C4 witness: the user-override case of `TestK0sConfigEnrichment` — the
user serviceCIDR is preserved and the pod CIDR is injected. -/
theorem c4_enrichment_injection_witness :
    enrichK0sConfigWithClusterData enrichClusterEx (some enrichUserDoc)
      = some (enrichDoc enrichNetEx enrichUserDoc) ∧
    (enrichDoc enrichNetEx enrichUserDoc).podCIDR = firstBlock enrichNetEx.podsCIDRBlocks ∧
    (enrichDoc enrichNetEx enrichUserDoc).serviceCIDR = some "10.98.0.0/12" := by
  refine ⟨rfl, ?_, ?_⟩
  · exact ((c4_enrichment_injection enrichClusterEx enrichNetEx enrichUserDoc).2 rfl
      (enrichDoc enrichNetEx enrichUserDoc) rfl).2.2.1 rfl
  · exact ((c4_enrichment_injection enrichClusterEx enrichNetEx enrichUserDoc).2 rfl
      (enrichDoc enrichNetEx enrichUserDoc) rfl).2.1 "10.98.0.0/12" rfl

/-- C5: enriching an already-enriched document changes nothing. -/
theorem c5_enrichment_idempotent (cluster : Cluster) (cfg : Option K0sDoc) :
    enrichK0sConfigWithClusterData cluster (enrichK0sConfigWithClusterData cluster cfg)
      = enrichK0sConfigWithClusterData cluster cfg := by
  cases h : cluster.clusterNetwork with
  | none => simp [enrichK0sConfigWithClusterData, h]
  | some net =>
    simp [enrichK0sConfigWithClusterData, h]
    simp [enrichDoc, injectOpt_idem]

/-- The kubeconfig model reproduces `TestReconcileKubeconfigTunnelingModeProxy`:
the proxied variant is written with the endpoint as server and the tunneling
address as proxy URL, and a non-nil error is returned. -/
theorem kubeconfig_matches_test_proxy :
    reconcileKubeconfig exCluster proxyKcp kubeStateNoVariant =
      ⟨[("kcp-foo-proxied-kubeconfig",
         ⟨"https://test.endpoint:6443", some "http://test.com:9999"⟩)],
       some "proxied kubeconfig written; canonical pipeline incomplete"⟩ := by
  decide

/-- The kubeconfig model reproduces `TestReconcileKubeconfigTunnelingModeTunnel`:
the tunneled variant is written with the tunneling address as server and no
proxy URL, and a non-nil error is returned. -/
theorem kubeconfig_matches_test_tunnel :
    reconcileKubeconfig exCluster tunnelKcp kubeStateNoVariant =
      ⟨[("kcp-foo-tunneled-kubeconfig", ⟨"https://test.com:9999", none⟩)],
       some "tunneled kubeconfig written; canonical pipeline incomplete"⟩ := by
  decide

/-- C6: with tunneling enabled, the Cluster CA present and a non-empty
control-plane endpoint, mode `proxy` publishes `<cluster>-proxied-kubeconfig`
with the endpoint as server and `http://<serverAddress>:<nodePort>` as proxy
URL, mode `tunnel` publishes `<cluster>-tunneled-kubeconfig` with
`https://<serverAddress>:<nodePort>` as server and no proxy URL, and in both
modes the call returns a non-nil error although the variant secret was
written. -/
theorem c6_kubeconfig_variants (cluster : Cluster) (kcp : K0sControlPlane)
    (st : KubeconfigState)
    (hhost : cluster.controlPlaneEndpoint.host ≠ "")
    (hport : cluster.controlPlaneEndpoint.port ≠ 0)
    (hca : st.caExists = true)
    (hen : kcp.spec.k0sConfigSpec.tunneling.enabled = true) :
    (kcp.spec.k0sConfigSpec.tunneling.mode = "proxy" → st.proxiedExists = false →
      (reconcileKubeconfig cluster kcp st).written =
        [(cluster.name ++ "-proxied-kubeconfig",
          ⟨"https://" ++ cluster.controlPlaneEndpoint.host ++ ":"
             ++ toString cluster.controlPlaneEndpoint.port,
           some ("http://" ++ kcp.spec.k0sConfigSpec.tunneling.serverAddress ++ ":"
             ++ toString kcp.spec.k0sConfigSpec.tunneling.tunnelingNodePort)⟩)] ∧
      (reconcileKubeconfig cluster kcp st).err ≠ none) ∧
    (kcp.spec.k0sConfigSpec.tunneling.mode = "tunnel" → st.tunneledExists = false →
      (reconcileKubeconfig cluster kcp st).written =
        [(cluster.name ++ "-tunneled-kubeconfig",
          ⟨"https://" ++ kcp.spec.k0sConfigSpec.tunneling.serverAddress ++ ":"
             ++ toString kcp.spec.k0sConfigSpec.tunneling.tunnelingNodePort, none⟩)] ∧
      (reconcileKubeconfig cluster kcp st).err ≠ none) := by
  constructor
  · intro hm hv
    simp [reconcileKubeconfig, hhost, hport, hca, hen, hm, hv]
  · intro hm hv
    simp [reconcileKubeconfig, hhost, hport, hca, hen, hm, hv]

/-- C6 witness: the proxied and tunneled variants at the inputs of the
tunneling kubeconfig tests. -/
theorem c6_kubeconfig_variants_witness :
    (reconcileKubeconfig exCluster proxyKcp kubeStateNoVariant).written =
      [(exCluster.name ++ "-proxied-kubeconfig",
        ⟨"https://" ++ exCluster.controlPlaneEndpoint.host ++ ":"
           ++ toString exCluster.controlPlaneEndpoint.port,
         some ("http://" ++ proxyKcp.spec.k0sConfigSpec.tunneling.serverAddress ++ ":"
           ++ toString proxyKcp.spec.k0sConfigSpec.tunneling.tunnelingNodePort)⟩)] ∧
    (reconcileKubeconfig exCluster tunnelKcp kubeStateNoVariant).err ≠ none := by
  constructor
  · exact ((c6_kubeconfig_variants exCluster proxyKcp kubeStateNoVariant
      (by decide) (by decide) rfl rfl).1 rfl rfl).1
  · exact ((c6_kubeconfig_variants exCluster tunnelKcp kubeStateNoVariant
      (by decide) (by decide) rfl rfl).2 rfl rfl).2

/-- C7: `reconcileKubeconfig` returns an error when the control-plane endpoint
is empty and when the Cluster CA secret does not exist, and in both failure
cases no kubeconfig secret is written. -/
theorem c7_kubeconfig_errors (cluster : Cluster) (kcp : K0sControlPlane)
    (st : KubeconfigState) :
    ((cluster.controlPlaneEndpoint.host = "" ∨ cluster.controlPlaneEndpoint.port = 0) →
      (reconcileKubeconfig cluster kcp st).err ≠ none ∧
      (reconcileKubeconfig cluster kcp st).written = []) ∧
    (st.caExists = false →
      ¬(cluster.controlPlaneEndpoint.host = "" ∨ cluster.controlPlaneEndpoint.port = 0) →
      (reconcileKubeconfig cluster kcp st).err ≠ none ∧
      (reconcileKubeconfig cluster kcp st).written = []) := by
  constructor
  · intro h
    simp [reconcileKubeconfig, h]
  · intro hca h
    simp [reconcileKubeconfig, h, hca]

/-- C7 witness: an empty endpoint and a missing CA each produce an error with
no write. -/
theorem c7_kubeconfig_errors_witness :
    (reconcileKubeconfig ⟨"kcp-foo", "ns", none, ⟨"", 0⟩, false⟩ exKcp kubeStateNoVariant).written
      = [] ∧
    (reconcileKubeconfig exCluster exKcp ⟨false, false, false, false⟩).written = [] := by
  exact ⟨((c7_kubeconfig_errors ⟨"kcp-foo", "ns", none, ⟨"", 0⟩, false⟩ exKcp
      kubeStateNoVariant).1 (Or.inl rfl)).2,
    ((c7_kubeconfig_errors exCluster exKcp ⟨false, false, false, false⟩).2 rfl (by decide)).2⟩

/-- C8: `Reconcile` short-circuits with no error — the empty result when the
control plane is not found, a 20-second requeue when the owner cluster
reference is missing, and the empty result when the cluster is paused or the
control plane carries the paused annotation — in each case without running the
later stages. -/
theorem c8_dispatch_short_circuits (inp : DispatchInput) :
    (inp.cpFound = false → reconcileDispatch inp = ⟨⟨false, 0⟩, none, false⟩) ∧
    (inp.cpFound = true → inp.ownerClusterFound = false →
      reconcileDispatch inp = ⟨⟨true, 20⟩, none, false⟩) ∧
    (inp.cpFound = true → inp.ownerClusterFound = true →
      (inp.clusterPaused = true ∨ inp.cpPausedAnn = true) →
      reconcileDispatch inp = ⟨⟨false, 0⟩, none, false⟩) := by
  refine ⟨?_, ?_, ?_⟩
  · intro h
    simp [reconcileDispatch, h]
  · intro h1 h2
    simp [reconcileDispatch, h1, h2]
  · intro h1 h2 h3
    rcases h3 with h3 | h3 <;> simp [reconcileDispatch, h1, h2, h3]

/-- C8 witness: the three short-circuit cases at concrete inputs. -/
theorem c8_dispatch_short_circuits_witness :
    reconcileDispatch ⟨false, true, false, false, false, none⟩ = ⟨⟨false, 0⟩, none, false⟩ ∧
    reconcileDispatch ⟨true, false, false, false, false, none⟩ = ⟨⟨true, 20⟩, none, false⟩ ∧
    reconcileDispatch ⟨true, true, true, false, false, none⟩ = ⟨⟨false, 0⟩, none, false⟩ := by
  exact ⟨(c8_dispatch_short_circuits ⟨false, true, false, false, false, none⟩).1 rfl,
    (c8_dispatch_short_circuits ⟨true, false, false, false, false, none⟩).2.1 rfl rfl,
    (c8_dispatch_short_circuits ⟨true, true, true, false, false, none⟩).2.2 rfl rfl (Or.inl rfl)⟩

end K0smotron
